import Mathlib

/-!
Shallow embedding of the FrameFinder repository: two near-duplicate FastAPI
servers (`src/proj.py`, here namespace `Proj`, and `src/proj1.py`, here
namespace `Proj1`) that list, create and launch FiftyOne dataset
visualisation sessions.

The external FiftyOne library is modelled by `FoStorage` (its persistent
dataset store) together with an `Env` of outcomes for the external calls
that may fail (`fo.list_datasets`, `Dataset.to_frames`, `fo.launch_app`,
`Session.wait`, `fo.core.service.stop`).  The file system seen by
`os.path.exists` / `os.walk` is modelled by `FileSystem`.  Each route
handler is translated into a Lean function from state to state, paired with
the HTTP result and the trace of external calls it makes.
-/

/-- A FiftyOne sample: the code only ever sets `filepath` (proj.py line 111,
proj1.py line 114). -/
structure Sample where
  filepath : String
deriving BEq, DecidableEq, Repr

/-- A FiftyOne dataset as far as this program observes it: its name, its
samples in insertion order, and the `persistent` flag. -/
structure FoDataset where
  name : String
  samples : List Sample
  persistent : Bool
deriving BEq, DecidableEq, Repr

instance : Inhabited FoDataset := ⟨⟨"", [], false⟩⟩

/-- The external library's own dataset store (`fo.*` persistence). -/
structure FoStorage where
  datasets : List FoDataset
deriving BEq, DecidableEq, Repr

/-- `fo.dataset_exists(name)`. -/
def FoStorage.dataset_exists (s : FoStorage) (name : String) : Bool :=
  s.datasets.any (fun d => d.name == name)

/-- `fo.load_dataset(name)`: `none` models the raised error when absent. -/
def FoStorage.load (s : FoStorage) (name : String) : Option FoDataset :=
  s.datasets.find? (fun d => d.name == name)

/-- `fo.load_dataset(name).delete()`: the dataset is removed from storage. -/
def FoStorage.deleteDataset (s : FoStorage) (name : String) : FoStorage :=
  ⟨s.datasets.filter (fun d => d.name != name)⟩

/-- `fo.Dataset(name)` followed by the sample-adding loop and
`dataset.persistent = True`: the finished dataset is registered. -/
def FoStorage.add (s : FoStorage) (d : FoDataset) : FoStorage :=
  ⟨s.datasets ++ [d]⟩

/-- `fo.list_datasets()`: the names of the stored datasets. -/
def FoStorage.listNames (s : FoStorage) : List String :=
  s.datasets.map (fun d => d.name)

/-- A frames view (`dataset.to_frames(sample_frames=True)` result):
`numFrames` is its length, which Python truthiness inspects. -/
structure FramesView where
  sourceName : String
  numFrames : Nat
deriving BEq, DecidableEq, Repr

/-- The events of calls into the external library, used to state which side
effects a handler performs and in which order. -/
inductive ExtCall where
  | listDatasets
  | loadDataset (name : String)
  | toFrames (name : String)
  | launchApp
  | sessionWait
  | deleteDataset (name : String)
  | createDataset (name : String)
  | serviceStop
deriving BEq, DecidableEq, Repr

/-- Status of an asyncio task as the shutdown code observes it. -/
inductive TaskStatus where
  | pending
  | doneOk
  | failed (exc : String)
  | cancelled
deriving BEq, DecidableEq, Repr

/-- `task.cancel()`: a pending task becomes cancelled, a finished one is
unaffected. -/
def cancelTask : TaskStatus → TaskStatus
  | .pending => .cancelled
  | s => s

/-- Whether a task status is a stored exception. -/
def isFailed : TaskStatus → Bool
  | .failed _ => true
  | _ => false

/-- Outcomes of the fallible external calls: `none` / `.ok` is success, a
`String` is the message of the raised exception. -/
structure Env where
  listOutcome : Option String
  toFramesResult : FoDataset → Except String FramesView
  launchAppOutcome : Option String
  sessionWaitOutcome : Option String
  stopOutcome : Option String

/-- The file system: which paths exist as directories, which as regular
files, and what `os.walk` yields from a root (a list of
(subdirectory, filenames) pairs, in walk order). -/
structure FileSystem where
  dirs : List String
  regularFiles : List String
  walkEntries : String → List (String × List String)

/-- `os.path.exists(p)`: true for directories and regular files alike. -/
def FileSystem.pathExists (fs : FileSystem) (p : String) : Bool :=
  fs.dirs.contains p || fs.regularFiles.contains p

/-- `os.walk` semantics the model relies on: walking a path that is not a
directory yields nothing. -/
def FileSystem.walkWF (fs : FileSystem) : Prop :=
  ∀ p, fs.dirs.contains p = false → fs.walkEntries p = []

/-- `os.path.join(subdir, file)` for the paths `os.walk` emits. -/
def joinPath (subdir file : String) : String :=
  subdir ++ "/" ++ file

/-- Python `str.lower` on one character: the ASCII case mapping, which
covers the characters of file names (`A`..`Z` shift by 32). -/
def pyLowerChar (c : Char) : Char :=
  if 65 ≤ c.toNat ∧ c.toNat ≤ 90 then Char.ofNat (c.toNat + 32) else c

/-- Python `str.lower`. -/
def pyLower (s : String) : String :=
  ⟨s.data.map pyLowerChar⟩

/-- Python `str.endswith`: suffix test on the character sequences. -/
def pyEndsWith (s suffix : String) : Bool :=
  suffix.data.isSuffixOf s.data

/-- `file.lower().endswith(".mp4")` (proj.py line 110, proj1.py line 113). -/
def isMp4 (file : String) : Bool :=
  pyEndsWith (pyLower file) ".mp4"

/-- The samples the create-dataset loop adds: one per walked file whose
lowercased name ends in ".mp4", with `filepath = os.path.join(subdir, file)`,
in walk order. -/
def mp4Samples (fs : FileSystem) (dir : String) : List Sample :=
  (fs.walkEntries dir).flatMap
    (fun e => (e.2.filter isMp4).map (fun f => ⟨joinPath e.1 f⟩))

/-- Key membership in an association list, as Python `in` on a dict. -/
def keyMem {α : Type} (es : List (String × α)) (k : String) : Bool :=
  es.any (fun p => p.1 == k)

/-- Dict item assignment `d[k] = v`: replace in place or append. -/
def setEntry {α : Type} (es : List (String × α)) (k : String) (v : α) :
    List (String × α) :=
  if keyMem es k then es.map (fun p => if p.1 == k then (k, v) else p)
  else es ++ [(k, v)]

/-- Dict lookup `d.get(k)` / `d[k]` (the latter raising on `none`). -/
def lookupEntry {α : Type} (es : List (String × α)) (k : String) : Option α :=
  (es.find? (fun p => p.1 == k)).map (fun p => p.2)

/-- Python truthiness of `frames_cache.get(name)`: `None` is falsy, and a
frames view is falsy exactly when it has no frames (FiftyOne collections
define truthiness by length). -/
def pyTruthy : Option FramesView → Bool
  | none => false
  | some fv => fv.numFrames != 0

/-- The HTTP outcome of a handler: a JSON success message, a raised
`HTTPException(status, detail)`, or an unhandled Python exception (which the
framework maps to a 500 response). -/
inductive HTTPResp where
  | ok (message : String)
  | err (status : Nat) (detail : String)
  | crash (exc : String)
deriving BEq, DecidableEq, Repr

/-- Response body of a successful `POST /create_dataset`. -/
def createdMsg (dataset_name : String) : String :=
  "Dataset " ++ "'" ++ dataset_name ++ "'" ++ " created successfully!"

/-- Response body of a successful `GET /api/launch_fiftyone/{dataset_name}`. -/
def launchMsg (dataset_name : String) : String :=
  "Launching FiftyOne app for dataset " ++ "'" ++ dataset_name ++ "'" ++ "."

/-- Status lookup in the task table (the code only awaits tasks it holds, so
absent ids never arise; `doneOk` is the harmless default). -/
def statusOf (tasks : List (Nat × TaskStatus)) (tid : Nat) : TaskStatus :=
  ((tasks.find? (fun p => p.1 == tid)).map (fun p => p.2)).getD .doneOk

/-- Update of one task's status in the task table. -/
def setTask (tasks : List (Nat × TaskStatus)) (tid : Nat) (s : TaskStatus) :
    List (Nat × TaskStatus) :=
  tasks.map (fun p => if p.1 == tid then (tid, s) else p)

/-- The external-call trace of `fo.launch_app(frames)` then `session.wait()`:
when the launch raises, the wait is never reached (both failures are caught
by the surrounding `except`). The caches are untouched by this phase. -/
def launchTail (env : Env) : List ExtCall :=
  match env.launchAppOutcome with
  | some _ => [ExtCall.launchApp]
  | none => [ExtCall.launchApp, ExtCall.sessionWait]

namespace Proj

/-- The value held by proj.py's `datasets_cache` global: initialised to the
dict `{}` (line 26), but `preload_datasets` (line 39) overwrites it with the
plain list of names returned by `fo.list_datasets`. -/
inductive CacheVal where
  | pydict (entries : List (String × FoDataset))
  | pylist (names : List String)
deriving BEq, DecidableEq, Repr

/-- Python `name in datasets_cache`: key membership for a dict, element
membership for a list of names. -/
def CacheVal.mem (c : CacheVal) (k : String) : Bool :=
  match c with
  | .pydict es => keyMem es k
  | .pylist ns => ns.contains k

/-- Python `datasets_cache[name] = dataset`: assignment into a dict
succeeds; on a list a string index raises `TypeError`. -/
def CacheVal.setItem (c : CacheVal) (k : String) (v : FoDataset) :
    Except String CacheVal :=
  match c with
  | .pydict es => .ok (.pydict (setEntry es k v))
  | .pylist _ => .error "TypeError: list indices must be integers or slices, not str"

/-- Whether the cache value is a mapping (dict). -/
def CacheVal.isDict : CacheVal → Bool
  | .pydict _ => true
  | .pylist _ => false

/-- Process state of the proj.py variant: the FiftyOne storage, the three
module-level globals (`datasets_cache`, `frames_cache`, `background_tasks`),
the statuses of the asyncio tasks, and a fresh-id counter for new tasks. -/
structure St where
  storage : FoStorage
  datasets_cache : CacheVal
  frames_cache : List (String × FramesView)
  background_tasks : List Nat
  tasks : List (Nat × TaskStatus)
  nextId : Nat
deriving BEq, Repr

/-- proj.py `preload_datasets` (lines 30-43): create the `fo.list_datasets`
task, add it to `background_tasks`, await it and remove it.  On success the
result — a LIST of names — is assigned to `datasets_cache`; on failure the
exception is caught after the assignment and removal were skipped, so the
failed task stays in `background_tasks`. -/
def preload_datasets (env : Env) (st : St) : St :=
  let tid := st.nextId
  let bt := st.background_tasks ++ [tid]
  let tasks := st.tasks ++ [(tid, TaskStatus.pending)]
  match env.listOutcome with
  | none =>
      { st with
        nextId := tid + 1
        background_tasks := bt.filter (fun i => i != tid)
        tasks := setTask tasks tid .doneOk
        datasets_cache := .pylist st.storage.listNames }
  | some e =>
      { st with
        nextId := tid + 1
        background_tasks := bt
        tasks := setTask tasks tid (.failed e) }

/-- proj.py `launch_fiftyone` (lines 86-98): populate `frames_cache` on a
miss via `fo.load_dataset` and `to_frames`, then `fo.launch_app` and
`session.wait`; every exception is caught and logged, so the function always
returns. -/
def launch_fiftyone (env : Env) (st : St) (dataset_name : String) :
    St × List ExtCall :=
  if keyMem st.frames_cache dataset_name then
    (st, launchTail env)
  else
    match st.storage.load dataset_name with
    | none => (st, [ExtCall.loadDataset dataset_name])
    | some ds =>
        match env.toFramesResult ds with
        | .error _ =>
            (st, [ExtCall.loadDataset dataset_name, ExtCall.toFrames dataset_name])
        | .ok fv =>
            ({ st with frames_cache := setEntry st.frames_cache dataset_name fv },
              [ExtCall.loadDataset dataset_name, ExtCall.toFrames dataset_name]
                ++ launchTail env)

/-- proj.py `launch_fiftyone_endpoint` (lines 75-84): 404 before any side
effect when the name is not in `datasets_cache`; otherwise run
`launch_fiftyone` as a tracked background task (added to the set, awaited —
it never raises — and removed), then acknowledge. -/
def launch_fiftyone_endpoint (env : Env) (st : St) (dataset_name : String) :
    St × HTTPResp × List ExtCall :=
  if st.datasets_cache.mem dataset_name = false then
    (st, .err 404 "Dataset not found.", [])
  else
    let tid := st.nextId
    let st1 : St :=
      { st with
        nextId := tid + 1
        background_tasks := st.background_tasks ++ [tid]
        tasks := st.tasks ++ [(tid, TaskStatus.pending)] }
    let res := launch_fiftyone env st1 dataset_name
    let st2 := res.1
    let st3 : St :=
      { st2 with
        tasks := setTask st2.tasks tid .doneOk
        background_tasks := st2.background_tasks.filter (fun i => i != tid) }
    (st3, .ok (launchMsg dataset_name), res.2)

/-- proj.py `create_dataset` (lines 100-114): 400 when the path does not
exist; destructive delete of a same-named stored dataset; build the new
dataset from the walked ".mp4" files; then `datasets_cache[name] = dataset`,
which raises `TypeError` when the cache is the list that startup left. -/
def create_dataset (fs : FileSystem) (st : St)
    (dataset_name dataset_dir : String) : St × HTTPResp × List ExtCall :=
  if fs.pathExists dataset_dir = false then
    (st, .err 400 "Directory not found.", [])
  else
    let del := st.storage.dataset_exists dataset_name
    let storage1 := if del then st.storage.deleteDataset dataset_name else st.storage
    let tr1 : List ExtCall :=
      if del then [.loadDataset dataset_name, .deleteDataset dataset_name] else []
    let ds : FoDataset :=
      { name := dataset_name, samples := mp4Samples fs dataset_dir, persistent := true }
    let storage2 := storage1.add ds
    let tr := tr1 ++ [ExtCall.createDataset dataset_name]
    match st.datasets_cache.setItem dataset_name ds with
    | .ok c =>
        ({ st with storage := storage2, datasets_cache := c },
          .ok (createdMsg dataset_name), tr)
    | .error e =>
        ({ st with storage := storage2 }, .crash e, tr)

/-- The cancellation sweep of proj.py `shutdown_event` (lines 53-58): for
each task in the set, `cancel()` then `await` under `except CancelledError`
only — a task that already failed with another exception re-raises it and
the sweep aborts.  No task is ever removed from the set. -/
def sweep : List Nat → List (Nat × TaskStatus) →
    List (Nat × TaskStatus) × Option String
  | [], tasks => (tasks, none)
  | tid :: rest, tasks =>
      let s := cancelTask (statusOf tasks tid)
      let tasks1 := setTask tasks tid s
      match s with
      | .failed e => (tasks1, some e)
      | _ => sweep rest tasks1

/-- proj.py `shutdown_event` (lines 45-65): run the cancellation sweep, then
`fo.core.service.stop()` under `except Exception` — the stop call's own
outcome therefore cannot influence the result.  The second component is the
exception the routine itself raises (`none` when it runs to completion). -/
def shutdown_event (_env : Env) (st : St) : St × Option String × List ExtCall :=
  let swept := sweep st.background_tasks st.tasks
  let st1 : St := { st with tasks := swept.1 }
  match swept.2 with
  | some e => (st1, some e, [])
  | none => (st1, none, [ExtCall.serviceStop])

end Proj

namespace Proj1

/-- Process state of the proj1.py variant: the FiftyOne storage, the two
module-level globals (`datasets_cache`, a dict, and `frames_cache`), and the
statuses of the other asyncio tasks of the loop (proj1 keeps no registry of
its own; its shutdown enumerates `asyncio.all_tasks()`). -/
structure St where
  storage : FoStorage
  datasets_cache : List (String × FoDataset)
  frames_cache : List (String × FramesView)
  tasks : List (Nat × TaskStatus)
deriving BEq, Repr

/-- The frames-precompute loop of proj1.py `preload_datasets` (lines 43-45):
for each cached dataset without a frames entry, compute and store one; the
first `to_frames` failure raises out of the loop (into the handler's
`except`), keeping the entries already stored. -/
def precomputeFrames (env : Env) : List (String × FoDataset) →
    List (String × FramesView) → List (String × FramesView)
  | [], fc => fc
  | (n, ds) :: rest, fc =>
      if keyMem fc n then precomputeFrames env rest fc
      else
        match env.toFramesResult ds with
        | .ok fv => precomputeFrames env rest (setEntry fc n fv)
        | .error _ => fc

/-- proj1.py `preload_datasets` (lines 31-49): list the stored dataset
names, build `datasets_cache` as the dict `{name: fo.load_dataset(name)}`,
then eagerly precompute frames; any exception is caught and logged. -/
def preload_datasets (env : Env) (st : St) : St :=
  match env.listOutcome with
  | some _ => st
  | none =>
      let dc := st.storage.listNames.filterMap
        (fun n => (st.storage.load n).map (fun d => (n, d)))
      { st with
        datasets_cache := dc
        frames_cache := precomputeFrames env dc st.frames_cache }

/-- proj1.py `launch_fiftyone` (lines 89-101): `frames_cache.get(name)` is
tested for TRUTHINESS (`if not frames:`), so both a missing entry and a
cached empty frames view trigger recomputation from the cached dataset
handle; every exception is caught and logged. -/
def launch_fiftyone (env : Env) (st : St) (dataset_name : String) :
    St × List ExtCall :=
  let frames := lookupEntry st.frames_cache dataset_name
  if pyTruthy frames = false then
    match lookupEntry st.datasets_cache dataset_name with
    | none => (st, [])
    | some ds =>
        match env.toFramesResult ds with
        | .error _ => (st, [ExtCall.toFrames dataset_name])
        | .ok fv =>
            ({ st with frames_cache := setEntry st.frames_cache dataset_name fv },
              ExtCall.toFrames dataset_name :: launchTail env)
  else
    (st, launchTail env)

/-- proj1.py `launch_fiftyone_endpoint` (lines 81-87): 404 before any side
effect when the name is not in `datasets_cache`; otherwise run the launch
work in a worker thread, await it (it never raises) and acknowledge. -/
def launch_fiftyone_endpoint (env : Env) (st : St) (dataset_name : String) :
    St × HTTPResp × List ExtCall :=
  if keyMem st.datasets_cache dataset_name = false then
    (st, .err 404 "Dataset not found.", [])
  else
    let res := launch_fiftyone env st dataset_name
    (res.1, .ok (launchMsg dataset_name), res.2)

/-- proj1.py `create_dataset` (lines 103-117): identical to proj.py's except
that `datasets_cache` is always a dict here, so the final assignment always
succeeds. -/
def create_dataset (fs : FileSystem) (st : St)
    (dataset_name dataset_dir : String) : St × HTTPResp × List ExtCall :=
  if fs.pathExists dataset_dir = false then
    (st, .err 400 "Directory not found.", [])
  else
    let del := st.storage.dataset_exists dataset_name
    let storage1 := if del then st.storage.deleteDataset dataset_name else st.storage
    let tr1 : List ExtCall :=
      if del then [.loadDataset dataset_name, .deleteDataset dataset_name] else []
    let ds : FoDataset :=
      { name := dataset_name, samples := mp4Samples fs dataset_dir, persistent := true }
    let storage2 := storage1.add ds
    ({ st with
        storage := storage2
        datasets_cache := setEntry st.datasets_cache dataset_name ds },
      .ok (createdMsg dataset_name), tr1 ++ [ExtCall.createDataset dataset_name])

/-- proj1.py `shutdown_event` (lines 51-71): cancel every other pending
task, `asyncio.gather(..., return_exceptions=True)` — which swallows every
exception — then `fo.core.service.stop()` under `except Exception`.  The
routine never raises: the middle component is always `none`. -/
def shutdown_event (_env : Env) (st : St) : St × Option String × List ExtCall :=
  let tasks1 := st.tasks.map (fun p => (p.1, cancelTask p.2))
  ({ st with tasks := tasks1 }, none, [ExtCall.serviceStop])

end Proj1

/-! ## Concrete fixtures -/

/-- The spec's concrete scenario: `/tmp/videos` holding `a.mp4`, `b.MP4` and
`notes.txt`. -/
def demoFS : FileSystem where
  dirs := ["/tmp/videos"]
  regularFiles := []
  walkEntries := fun d =>
    if d == "/tmp/videos" then [("/tmp/videos", ["a.mp4", "b.MP4", "notes.txt"])]
    else []

/-- A path that exists but is a regular file, not a directory: `os.walk`
yields nothing from it. -/
def fileOnlyFS : FileSystem where
  dirs := []
  regularFiles := ["/tmp/afile"]
  walkEntries := fun _ => []

/-- A file system where nothing exists. -/
def emptyFS : FileSystem where
  dirs := []
  regularFiles := []
  walkEntries := fun _ => []

/-- An environment where every external call succeeds (frames views come
back with 5 frames). -/
def okEnv : Env where
  listOutcome := none
  toFramesResult := fun ds => .ok ⟨ds.name, 5⟩
  launchAppOutcome := none
  sessionWaitOutcome := none
  stopOutcome := none

/-- An environment where every fallible external call raises. -/
def failingEnv : Env where
  listOutcome := some "connection error"
  toFramesResult := fun _ => .error "to_frames failed"
  launchAppOutcome := some "launch failed"
  sessionWaitOutcome := some "wait failed"
  stopOutcome := some "stop failed"

/-- A previously persisted `demo` dataset with one old sample. -/
def oldDemoDataset : FoDataset where
  name := "demo"
  samples := [⟨"/data/old/clip.mp4"⟩]
  persistent := true

/-- External storage holding only the old `demo` dataset. -/
def demoStorage : FoStorage := ⟨[oldDemoDataset]⟩

/-- proj.py process state right after module import (before startup), with
empty external storage. -/
def projInit : Proj.St where
  storage := ⟨[]⟩
  datasets_cache := .pydict []
  frames_cache := []
  background_tasks := []
  tasks := []
  nextId := 0

/-- proj.py state after a SUCCESSFUL startup on empty storage: the dataset
cache is now the list `[]`, not a dict. -/
def projAfterStartup : Proj.St := Proj.preload_datasets okEnv projInit

/-- proj.py pre-startup state over storage holding the old `demo` dataset. -/
def projDemoInit : Proj.St where
  storage := demoStorage
  datasets_cache := .pydict []
  frames_cache := []
  background_tasks := []
  tasks := []
  nextId := 0

/-- proj.py state after a successful startup over the `demo` storage: the
cache is the name list `["demo"]`. -/
def projDemoAfterStartup : Proj.St := Proj.preload_datasets okEnv projDemoInit

/-- proj.py state after a FAILED startup (`fo.list_datasets` raised): the
failed task was never removed from `background_tasks`. -/
def projAfterFailedStartup : Proj.St := Proj.preload_datasets failingEnv projInit

/-- A proj.py state whose registry holds one still-pending task. -/
def projPendingTaskSt : Proj.St where
  storage := ⟨[]⟩
  datasets_cache := .pydict []
  frames_cache := []
  background_tasks := [3]
  tasks := [(3, .pending)]
  nextId := 4

/-- proj1.py process state right after module import, empty storage. -/
def proj1Init : Proj1.St where
  storage := ⟨[]⟩
  datasets_cache := []
  frames_cache := []
  tasks := []

/-- proj1.py state with the old `demo` dataset cached (as its startup
builds it). -/
def proj1DemoCached : Proj1.St where
  storage := demoStorage
  datasets_cache := [("demo", oldDemoDataset)]
  frames_cache := []
  tasks := []

/-- proj1.py state where `demo` is cached and the frame cache already holds
an entry for it — an EMPTY frames view, hence falsy in Python. -/
def proj1StaleFramesSt : Proj1.St where
  storage := demoStorage
  datasets_cache := [("demo", oldDemoDataset)]
  frames_cache := [("demo", ⟨"demo", 0⟩)]
  tasks := []

/-- proj1.py state where `demo` is cached with a non-empty frames view. -/
def proj1WarmFramesSt : Proj1.St where
  storage := demoStorage
  datasets_cache := [("demo", oldDemoDataset)]
  frames_cache := [("demo", ⟨"demo", 5⟩)]
  tasks := []

/-- proj.py state (post-startup) with a warm frames entry for `demo`. -/
def projWarmFramesSt : Proj.St where
  storage := demoStorage
  datasets_cache := .pylist ["demo"]
  frames_cache := [("demo", ⟨"demo", 5⟩)]
  background_tasks := []
  tasks := []
  nextId := 1

/-! ## Claim theorems -/

/-- C2: in both variants, a launch request whose dataset name is not in the
Dataset Cache yields HTTP 404 with detail "Dataset not found.", the state is
untouched and no external call is made (the check precedes any side effect),
so a 200 acknowledgement is never produced for an uncached name. -/
theorem launch_unknown_dataset_always_404 (env : Env) (st : Proj.St)
    (st1 : Proj1.St) (dataset_name : String)
    (h : st.datasets_cache.mem dataset_name = false)
    (h1 : keyMem st1.datasets_cache dataset_name = false) :
    Proj.launch_fiftyone_endpoint env st dataset_name =
      (st, HTTPResp.err 404 "Dataset not found.", []) ∧
    Proj1.launch_fiftyone_endpoint env st1 dataset_name =
      (st1, HTTPResp.err 404 "Dataset not found.", []) := by
  constructor
  · simp [Proj.launch_fiftyone_endpoint, h]
  · simp [Proj1.launch_fiftyone_endpoint, h1]

/-- C2 witness: `GET /api/launch_fiftyone/unknown` on the initial states. -/
theorem launch_unknown_dataset_always_404_witness :
    Proj.launch_fiftyone_endpoint okEnv projInit "unknown" =
      (projInit, HTTPResp.err 404 "Dataset not found.", []) ∧
    Proj1.launch_fiftyone_endpoint okEnv proj1Init "unknown" =
      (proj1Init, HTTPResp.err 404 "Dataset not found.", []) :=
  launch_unknown_dataset_always_404 okEnv projInit proj1Init "unknown" rfl rfl

/-- C3: in both variants, create-dataset with a nonexistent source path
returns HTTP 400 "Directory not found." and leaves the whole state —
in particular the Dataset Cache — exactly as it was, with no external call
made. -/
theorem create_missing_directory_400_unchanged (fs : FileSystem)
    (st : Proj.St) (st1 : Proj1.St) (dataset_name dataset_dir : String)
    (h : fs.pathExists dataset_dir = false) :
    Proj.create_dataset fs st dataset_name dataset_dir =
      (st, HTTPResp.err 400 "Directory not found.", []) ∧
    Proj1.create_dataset fs st1 dataset_name dataset_dir =
      (st1, HTTPResp.err 400 "Directory not found.", []) := by
  constructor
  · simp [Proj.create_dataset, h]
  · simp [Proj1.create_dataset, h]

/-- C3 witness: creation from the nonexistent `/nowhere` path. -/
theorem create_missing_directory_400_unchanged_witness :
    Proj.create_dataset emptyFS projInit "demo" "/nowhere" =
      (projInit, HTTPResp.err 400 "Directory not found.", []) ∧
    Proj1.create_dataset emptyFS proj1Init "demo" "/nowhere" =
      (proj1Init, HTTPResp.err 400 "Directory not found.", []) :=
  create_missing_directory_400_unchanged emptyFS projInit proj1Init
    "demo" "/nowhere" rfl

/-- C4: in both variants, a launch request on a cached dataset name is
acknowledged with the fixed success message for EVERY environment — whether
frame computation, `fo.launch_app` or `session.wait` succeed or raise, the
worker catches and logs the failure and the HTTP caller sees the same
message. -/
theorem launch_cached_always_acknowledges (env : Env) (st : Proj.St)
    (st1 : Proj1.St) (dataset_name : String)
    (h : st.datasets_cache.mem dataset_name = true)
    (h1 : keyMem st1.datasets_cache dataset_name = true) :
    (Proj.launch_fiftyone_endpoint env st dataset_name).2.1 =
      HTTPResp.ok (launchMsg dataset_name) ∧
    (Proj1.launch_fiftyone_endpoint env st1 dataset_name).2.1 =
      HTTPResp.ok (launchMsg dataset_name) := by
  constructor
  · simp [Proj.launch_fiftyone_endpoint, h]
  · simp [Proj1.launch_fiftyone_endpoint, h1]

/-- C4 witness: with every external call failing, launching the cached
`demo` dataset still acknowledges success in both variants. -/
theorem launch_cached_always_acknowledges_witness :
    (Proj.launch_fiftyone_endpoint failingEnv projDemoAfterStartup "demo").2.1 =
      HTTPResp.ok (launchMsg "demo") ∧
    (Proj1.launch_fiftyone_endpoint failingEnv proj1DemoCached "demo").2.1 =
      HTTPResp.ok (launchMsg "demo") :=
  launch_cached_always_acknowledges failingEnv projDemoAfterStartup
    proj1DemoCached "demo" rfl rfl

/-- C1: evaluation at the spec's concrete scenario.  In proj1 (and in proj
before startup) the demo directory yields exactly the 2 ".mp4"/".MP4"
samples and the success message; but in proj AFTER a successful startup the
dataset cache is the list `fo.list_datasets` returned, so the final cache
store raises `TypeError` (HTTP 500) — the created dataset still holds
exactly the 2 matching samples. -/
theorem create_dataset_demo_scenario_eval :
    projAfterStartup.datasets_cache = Proj.CacheVal.pylist [] ∧
    (Proj.create_dataset demoFS projAfterStartup "demo" "/tmp/videos").2.1 =
      HTTPResp.crash "TypeError: list indices must be integers or slices, not str" ∧
    ((Proj.create_dataset demoFS projAfterStartup "demo" "/tmp/videos").1.storage.load
        "demo").map (fun d => d.samples) =
      some [⟨"/tmp/videos/a.mp4"⟩, ⟨"/tmp/videos/b.MP4"⟩] ∧
    (Proj1.create_dataset demoFS proj1Init "demo" "/tmp/videos").2.1 =
      HTTPResp.ok "Dataset 'demo' created successfully!" ∧
    ((Proj1.create_dataset demoFS proj1Init "demo" "/tmp/videos").1.storage.load
        "demo").map (fun d => d.samples) =
      some [⟨"/tmp/videos/a.mp4"⟩, ⟨"/tmp/videos/b.MP4"⟩] ∧
    lookupEntry
        (Proj1.create_dataset demoFS proj1Init "demo" "/tmp/videos").1.datasets_cache
        "demo" =
      some ⟨"demo", [⟨"/tmp/videos/a.mp4"⟩, ⟨"/tmp/videos/b.MP4"⟩], true⟩ ∧
    (Proj.create_dataset demoFS projInit "demo" "/tmp/videos").2.1 =
      HTTPResp.ok "Dataset 'demo' created successfully!" :=
  ⟨rfl, rfl, rfl, rfl, rfl, rfl, rfl⟩

/-- C5: evaluation of both startup hooks over storage holding `demo`.  The
proj variant's startup stores the plain name LIST (not a name-to-handle
mapping) in `datasets_cache`; proj1's startup builds the dict. -/
theorem preload_cache_shape_eval :
    (Proj.preload_datasets okEnv projDemoInit).datasets_cache =
      Proj.CacheVal.pylist ["demo"] ∧
    Proj.CacheVal.isDict
      (Proj.preload_datasets okEnv projDemoInit).datasets_cache = false ∧
    (Proj1.preload_datasets okEnv
        ⟨demoStorage, [], [], []⟩).datasets_cache = [("demo", oldDemoDataset)] :=
  ⟨rfl, rfl, rfl⟩

/-- C9: evaluation of re-creating `demo` over storage holding the old
`demo`.  In proj1 the old dataset is deleted before the new one is created
(the trace shows load+delete before create), no old sample survives, and the
new handle replaces the cache entry.  In proj after a successful startup the
storage is likewise replaced but the cache store raises `TypeError`, so no
handle replaces any cache entry — the cache is still the name list. -/
theorem recreate_demo_replacement_eval :
    (Proj1.create_dataset demoFS proj1DemoCached "demo" "/tmp/videos").2.2 =
      [ExtCall.loadDataset "demo", ExtCall.deleteDataset "demo",
        ExtCall.createDataset "demo"] ∧
    (Proj1.create_dataset demoFS proj1DemoCached "demo" "/tmp/videos").1.storage =
      ⟨[⟨"demo", [⟨"/tmp/videos/a.mp4"⟩, ⟨"/tmp/videos/b.MP4"⟩], true⟩]⟩ ∧
    lookupEntry
        (Proj1.create_dataset demoFS proj1DemoCached "demo" "/tmp/videos").1.datasets_cache
        "demo" =
      some ⟨"demo", [⟨"/tmp/videos/a.mp4"⟩, ⟨"/tmp/videos/b.MP4"⟩], true⟩ ∧
    (Proj.create_dataset demoFS projDemoAfterStartup "demo" "/tmp/videos").2.1 =
      HTTPResp.crash "TypeError: list indices must be integers or slices, not str" ∧
    (Proj.create_dataset demoFS projDemoAfterStartup "demo" "/tmp/videos").1.datasets_cache =
      Proj.CacheVal.pylist ["demo"] :=
  ⟨rfl, rfl, rfl, rfl, rfl⟩

/-- C6 counterexample: in proj1, a FramesEntry for `demo` EXISTS in the
Frame Cache (an empty frames view), yet the launch worker recomputes the
frames view (`to_frames` is called) and overwrites the cached entry, because
the code tests `if not frames:` — truthiness, not presence. -/
theorem launch_recomputes_existing_empty_entry :
    keyMem proj1StaleFramesSt.frames_cache "demo" = true ∧
    ExtCall.toFrames "demo" ∈
      (Proj1.launch_fiftyone okEnv proj1StaleFramesSt "demo").2 ∧
    (Proj1.launch_fiftyone okEnv proj1StaleFramesSt "demo").1.frames_cache =
      [("demo", ⟨"demo", 5⟩)] := by
  refine ⟨rfl, ?_, rfl⟩
  show ExtCall.toFrames "demo" ∈ [ExtCall.toFrames "demo", .launchApp, .sessionWait]
  exact List.mem_cons_self _ _

/-- C8 counterexample: proj's shutdown aborts on a non-CancelledError
exception.  After the real failed-startup state (the preload task failed
with "connection error" and was left in the registry), the shutdown
routine's `except asyncio.CancelledError` does not catch the re-raised
exception: shutdown propagates it and `fo.core.service.stop()` is never
reached. -/
theorem shutdown_propagates_task_exception :
    (Proj.shutdown_event okEnv projAfterFailedStartup).2.1 =
      some "connection error" ∧
    (Proj.shutdown_event okEnv projAfterFailedStartup).2.2 = [] :=
  ⟨rfl, rfl⟩

/-- C10: in both variants the 400 "Directory not found." response arises
exactly when the path does not exist at all — never because the path is a
non-directory; at the concrete regular-file input `/tmp/afile` the existence
check passes, the walk yields nothing, and proj1 returns the success
acknowledgement having created a dataset with zero samples. -/
theorem create_accepts_existing_nondirectory :
    (∀ (fs : FileSystem) (st : Proj.St) (st1 : Proj1.St)
        (dataset_name dataset_dir : String),
      ((Proj.create_dataset fs st dataset_name dataset_dir).2.1 =
          HTTPResp.err 400 "Directory not found." ↔
        fs.pathExists dataset_dir = false) ∧
      ((Proj1.create_dataset fs st1 dataset_name dataset_dir).2.1 =
          HTTPResp.err 400 "Directory not found." ↔
        fs.pathExists dataset_dir = false)) ∧
    fileOnlyFS.pathExists "/tmp/afile" = true ∧
    fileOnlyFS.dirs.contains "/tmp/afile" = false ∧
    fileOnlyFS.walkEntries "/tmp/afile" = [] ∧
    (Proj1.create_dataset fileOnlyFS proj1Init "zero" "/tmp/afile").2.1 =
      HTTPResp.ok (createdMsg "zero") ∧
    ((Proj1.create_dataset fileOnlyFS proj1Init "zero" "/tmp/afile").1.storage.load
        "zero").map (fun d => d.samples) = some [] := by
  refine ⟨?_, rfl, rfl, rfl, rfl, rfl⟩
  intro fs st st1 dataset_name dataset_dir
  cases hpe : fs.pathExists dataset_dir with
  | false =>
      constructor <;> simp [Proj.create_dataset, Proj1.create_dataset, hpe]
  | true =>
      constructor
      · simp only [Proj.create_dataset, hpe]
        norm_num
        split <;> simp
      · simp [Proj1.create_dataset, hpe]

/-! ## Task-table lemmas -/

theorem isFailed_cancelTask (s : TaskStatus) :
    isFailed (cancelTask s) = isFailed s := by
  cases s <;> rfl

theorem statusOf_setTask_of_ne (tasks : List (Nat × TaskStatus))
    (tid t : Nat) (s : TaskStatus) (h : t ≠ tid) :
    statusOf (setTask tasks tid s) t = statusOf tasks t := by
  induction tasks with
  | nil => rfl
  | cons a rest ih =>
      cases ha : a.1 == tid with
      | true =>
          have h2 : (tid == t) = false := beq_eq_false_iff_ne.mpr (Ne.symm h)
          have h3 : (a.1 == t) = false := by
            rw [eq_of_beq ha]; exact h2
          simpa [setTask, statusOf, List.find?, ha, h2, h3] using ih
      | false =>
          cases hat : a.1 == t with
          | true =>
              simp [setTask, statusOf, List.find?, ha, hat]
          | false =>
              simpa [setTask, statusOf, List.find?, ha, hat] using ih

theorem statusOf_setTask_self_cases (tasks : List (Nat × TaskStatus))
    (tid : Nat) (s : TaskStatus) :
    statusOf (setTask tasks tid s) tid = s ∨
    statusOf (setTask tasks tid s) tid = .doneOk := by
  induction tasks with
  | nil => right; rfl
  | cons a rest ih =>
      cases ha : a.1 == tid with
      | true => left; simp [setTask, statusOf, List.find?, ha]
      | false =>
          simpa [setTask, statusOf, List.find?, ha] using ih

theorem any_key_of_statusOf_pending_or_cancelled
    (tasks : List (Nat × TaskStatus)) (tid : Nat)
    (h : statusOf tasks tid = .pending ∨ statusOf tasks tid = .cancelled) :
    tasks.any (fun p => p.1 == tid) = true := by
  induction tasks with
  | nil => rcases h with h | h <;> exact absurd h (by simp [statusOf])
  | cons a rest ih =>
      cases ha : a.1 == tid with
      | true => simp [List.any_cons, ha]
      | false =>
          have h' : statusOf rest tid = .pending ∨ statusOf rest tid = .cancelled := by
            rcases h with h | h <;>
              [left; right] <;>
              · rw [← h]; simp [statusOf, List.find?, ha]
          simp [List.any_cons, ha, ih h']

theorem statusOf_setTask_self_of_mem (tasks : List (Nat × TaskStatus))
    (tid : Nat) (s : TaskStatus)
    (h : tasks.any (fun p => p.1 == tid) = true) :
    statusOf (setTask tasks tid s) tid = s := by
  induction tasks with
  | nil => simp at h
  | cons a rest ih =>
      cases ha : a.1 == tid with
      | true => simp [setTask, statusOf, List.find?, ha]
      | false =>
          have h' : rest.any (fun p => p.1 == tid) = true := by
            simpa [List.any_cons, ha] using h
          simpa [setTask, statusOf, List.find?, ha] using ih h'

/-- The cancellation sweep runs to completion when no registered task holds
a stored (non-CancelledError) exception. -/
theorem sweep_completes (bt : List Nat) (tasks : List (Nat × TaskStatus))
    (h : ∀ t ∈ bt, isFailed (statusOf tasks t) = false) :
    (Proj.sweep bt tasks).2 = none := by
  induction bt generalizing tasks with
  | nil => rfl
  | cons tid rest ih =>
      have htid := h tid (List.mem_cons_self _ _)
      have hnf : isFailed (cancelTask (statusOf tasks tid)) = false := by
        rw [isFailed_cancelTask]; exact htid
      have hinv : ∀ s, isFailed s = false →
          ∀ t ∈ rest, isFailed (statusOf (setTask tasks tid s) t) = false := by
        intro s hs t ht
        by_cases he : t = tid
        · subst he
          rcases statusOf_setTask_self_cases tasks t s with hc | hc <;> rw [hc]
          · exact hs
          · rfl
        · rw [statusOf_setTask_of_ne tasks tid t s he]
          exact h t (List.mem_cons_of_mem _ ht)
      cases hs : cancelTask (statusOf tasks tid) with
      | pending => simp only [Proj.sweep, hs]; exact ih _ (hinv _ (by rw [← hs, isFailed_cancelTask]; exact htid))
      | doneOk => simp only [Proj.sweep, hs]; exact ih _ (hinv _ rfl)
      | cancelled => simp only [Proj.sweep, hs]; exact ih _ (hinv _ rfl)
      | failed e => rw [hs] at hnf; exact absurd hnf (by simp [isFailed])

/-- When every registered task is pending or already cancelled, the sweep
cancels them all, never removes them, and touches no other task's status. -/
theorem sweep_cancels_all (bt : List Nat) (tasks : List (Nat × TaskStatus))
    (h : ∀ t ∈ bt, statusOf tasks t = .pending ∨ statusOf tasks t = .cancelled) :
    (∀ t ∈ bt, statusOf (Proj.sweep bt tasks).1 t = .cancelled) ∧
    (∀ t, t ∉ bt → statusOf (Proj.sweep bt tasks).1 t = statusOf tasks t) := by
  induction bt generalizing tasks with
  | nil =>
      exact ⟨fun t ht => absurd ht (List.not_mem_nil t), fun t _ => rfl⟩
  | cons tid rest ih =>
      have htid := h tid (List.mem_cons_self _ _)
      have hs : cancelTask (statusOf tasks tid) = .cancelled := by
        rcases htid with h1 | h1 <;> rw [h1] <;> rfl
      have hmem : tasks.any (fun p => p.1 == tid) = true :=
        any_key_of_statusOf_pending_or_cancelled tasks tid htid
      have hself : statusOf (setTask tasks tid .cancelled) tid = .cancelled :=
        statusOf_setTask_self_of_mem tasks tid _ hmem
      have hinv : ∀ t ∈ rest,
          statusOf (setTask tasks tid .cancelled) t = .pending ∨
          statusOf (setTask tasks tid .cancelled) t = .cancelled := by
        intro t ht
        by_cases he : t = tid
        · subst he; right; exact hself
        · rw [statusOf_setTask_of_ne tasks tid t _ he]
          exact h t (List.mem_cons_of_mem _ ht)
      have hred : Proj.sweep (tid :: rest) tasks =
          Proj.sweep rest (setTask tasks tid .cancelled) := by
        simp only [Proj.sweep, hs]
      obtain ⟨hA, hB⟩ := ih (setTask tasks tid .cancelled) hinv
      rw [hred]
      constructor
      · intro t ht
        rcases List.mem_cons.mp ht with he | ht'
        · subst he
          by_cases hin : t ∈ rest
          · exact hA t hin
          · rw [hB t hin]; exact hself
        · exact hA t ht'
      · intro t ht
        have ht1 : t ∉ rest := fun hx => ht (List.mem_cons_of_mem _ hx)
        have ht2 : t ≠ tid := fun hx => ht (hx ▸ List.mem_cons_self _ _)
        rw [hB t ht1, statusOf_setTask_of_ne tasks tid t _ ht2]

/-- The launch worker never touches the task registry or the task table. -/
theorem launch_fiftyone_preserves_registry (env : Env) (st : Proj.St)
    (dataset_name : String) :
    (Proj.launch_fiftyone env st dataset_name).1.background_tasks =
      st.background_tasks ∧
    (Proj.launch_fiftyone env st dataset_name).1.tasks = st.tasks ∧
    (Proj.launch_fiftyone env st dataset_name).1.nextId = st.nextId := by
  unfold Proj.launch_fiftyone
  split
  · exact ⟨rfl, rfl, rfl⟩
  · split
    · exact ⟨rfl, rfl, rfl⟩
    · split
      · exact ⟨rfl, rfl, rfl⟩
      · exact ⟨rfl, rfl, rfl⟩

theorem filter_append_fresh (bt : List Nat) (tid : Nat) (h : tid ∉ bt) :
    (bt ++ [tid]).filter (fun i => i != tid) = bt := by
  rw [List.filter_append]
  have h1 : List.filter (fun i => i != tid) [tid] = [] := by simp
  rw [h1, List.append_nil]
  apply List.filter_eq_self.mpr
  intro a ha
  have h2 : a ≠ tid := fun he => h (he ▸ ha)
  simp [h2]

/-- The registry after a launch request on a cached name: the task is
appended on entry and filtered out after the successful await. -/
theorem endpoint_registry_shape (env : Env) (st : Proj.St)
    (dataset_name : String) (hm : st.datasets_cache.mem dataset_name = true) :
    (Proj.launch_fiftyone_endpoint env st dataset_name).1.background_tasks =
      (st.background_tasks ++ [st.nextId]).filter (fun i => i != st.nextId) := by
  simp only [Proj.launch_fiftyone_endpoint, hm]
  rw [(launch_fiftyone_preserves_registry env _ dataset_name).1]
  simp

/-- C7 counterexample: a pending task sits in the registry; proj's shutdown
sweep cancels it and completes, yet the now-cancelled task is still a member
of `background_tasks` afterwards. -/
theorem shutdown_sweep_keeps_cancelled_members :
    (Proj.shutdown_event okEnv projPendingTaskSt).1.background_tasks = [3] ∧
    statusOf (Proj.shutdown_event okEnv projPendingTaskSt).1.tasks 3 =
      .cancelled ∧
    (Proj.shutdown_event okEnv projPendingTaskSt).2.1 = none :=
  ⟨rfl, rfl, rfl⟩

/-- C7 (amended): in proj, a task is removed from the registry right after a
SUCCESSFUL awaited completion — the startup preload (when listing succeeds)
and the launch endpoint leave the registry as they found it — but the
shutdown cancellation sweep removes nothing: registry membership survives
shutdown unchanged, and when all members were pending the sweep completes
having cancelled every member, each of which REMAINS a member; a failed
preload even leaks its failed task into the registry. -/
theorem registry_membership_policy :
    (∀ (env : Env) (st : Proj.St),
      (Proj.shutdown_event env st).1.background_tasks = st.background_tasks) ∧
    (∀ (env : Env) (st : Proj.St),
      (∀ t ∈ st.background_tasks, statusOf st.tasks t = .pending) →
      (Proj.shutdown_event env st).2.1 = none ∧
      ∀ t ∈ st.background_tasks,
        statusOf (Proj.shutdown_event env st).1.tasks t = .cancelled) ∧
    (∀ (env : Env) (st : Proj.St) (dataset_name : String),
      st.datasets_cache.mem dataset_name = true →
      st.nextId ∉ st.background_tasks →
      (Proj.launch_fiftyone_endpoint env st dataset_name).1.background_tasks =
        st.background_tasks) ∧
    (∀ (env : Env) (st : Proj.St),
      env.listOutcome = none →
      st.nextId ∉ st.background_tasks →
      (Proj.preload_datasets env st).background_tasks = st.background_tasks) ∧
    (∀ (env : Env) (st : Proj.St) (e : String),
      env.listOutcome = some e →
      (Proj.preload_datasets env st).background_tasks =
        st.background_tasks ++ [st.nextId]) := by
  refine ⟨?_, ?_, ?_, ?_, ?_⟩
  · intro env st
    simp only [Proj.shutdown_event]
    split <;> rfl
  · intro env st h
    have hc : (Proj.sweep st.background_tasks st.tasks).2 = none :=
      sweep_completes _ _ (fun t ht => by rw [h t ht]; rfl)
    have ha := (sweep_cancels_all st.background_tasks st.tasks
      (fun t ht => Or.inl (h t ht))).1
    constructor
    · simp only [Proj.shutdown_event, hc]
    · intro t ht
      have h2 := ha t ht
      simp only [Proj.shutdown_event, hc]
      exact h2
  · intro env st dataset_name hm hfresh
    rw [endpoint_registry_shape env st dataset_name hm]
    exact filter_append_fresh _ _ hfresh
  · intro env st hout hfresh
    simp only [Proj.preload_datasets, hout]
    exact filter_append_fresh _ _ hfresh
  · intro env st e hout
    simp only [Proj.preload_datasets, hout]

/-- C7 witness: the amended statement exercised at concrete inputs — the
pending-task registry under shutdown, the launch endpoint on the cached
`demo` name, and both preload outcomes. -/
theorem registry_membership_policy_witness :
    ((Proj.shutdown_event okEnv projPendingTaskSt).2.1 = none ∧
      ∀ t ∈ projPendingTaskSt.background_tasks,
        statusOf (Proj.shutdown_event okEnv projPendingTaskSt).1.tasks t =
          .cancelled) ∧
    (Proj.launch_fiftyone_endpoint failingEnv projDemoAfterStartup
        "demo").1.background_tasks = projDemoAfterStartup.background_tasks ∧
    (Proj.preload_datasets okEnv projInit).background_tasks =
      projInit.background_tasks ∧
    (Proj.preload_datasets failingEnv projInit).background_tasks =
      projInit.background_tasks ++ [projInit.nextId] :=
  ⟨registry_membership_policy.2.1 okEnv projPendingTaskSt
      (by intro t ht; simp [projPendingTaskSt] at ht; subst ht; rfl),
    registry_membership_policy.2.2.1 failingEnv projDemoAfterStartup "demo"
      rfl (by decide),
    registry_membership_policy.2.2.2.1 okEnv projInit rfl
      (by simp [projInit]),
    registry_membership_policy.2.2.2.2 failingEnv projInit "connection error" rfl⟩

/-- C8 (amended): proj1's shutdown (cancel, gather with return_exceptions,
stop under a broad except) always runs to completion for every environment
and task population; proj's shutdown also completes — even when the
stop-services call raises — PROVIDED no registered task holds a stored
non-CancelledError exception; with such a task the sweep re-raises it (see
the counterexample). -/
theorem shutdown_failure_suppression :
    (∀ (env : Env) (st : Proj1.St),
      (Proj1.shutdown_event env st).2.1 = none ∧
      (Proj1.shutdown_event env st).2.2 = [ExtCall.serviceStop]) ∧
    (∀ (env : Env) (st : Proj.St),
      (∀ t ∈ st.background_tasks, isFailed (statusOf st.tasks t) = false) →
      (Proj.shutdown_event env st).2.1 = none ∧
      (Proj.shutdown_event env st).2.2 = [ExtCall.serviceStop]) := by
  constructor
  · intro env st
    exact ⟨rfl, rfl⟩
  · intro env st h
    have hc : (Proj.sweep st.background_tasks st.tasks).2 = none :=
      sweep_completes _ _ h
    refine ⟨?_, ?_⟩ <;> simp [Proj.shutdown_event, hc]

/-- C8 witness: with the stop call raising (and, for proj, a pending task in
the registry), both shutdown routines still complete and reach the stop
call. -/
theorem shutdown_failure_suppression_witness :
    ((Proj1.shutdown_event failingEnv proj1Init).2.1 = none ∧
      (Proj1.shutdown_event failingEnv proj1Init).2.2 = [ExtCall.serviceStop]) ∧
    ((Proj.shutdown_event failingEnv projPendingTaskSt).2.1 = none ∧
      (Proj.shutdown_event failingEnv projPendingTaskSt).2.2 =
        [ExtCall.serviceStop]) :=
  ⟨shutdown_failure_suppression.1 failingEnv proj1Init,
    shutdown_failure_suppression.2 failingEnv projPendingTaskSt
      (by intro t ht; simp [projPendingTaskSt] at ht; subst ht; rfl)⟩

/-! ## Frame-cache lemmas -/

theorem map_fst_update {α : Type} (es : List (String × α)) (k : String)
    (v : α) :
    (es.map (fun p => if p.1 == k then (k, v) else p)).map Prod.fst =
      es.map Prod.fst := by
  induction es with
  | nil => rfl
  | cons a rest ih =>
      simp only [List.map_cons, ih]
      cases ha : a.1 == k with
      | true =>
          rw [eq_of_beq ha]
          simp
      | false => simp [ha]

theorem keyMem_false_not_mem {α : Type} (es : List (String × α)) (k : String)
    (h : keyMem es k = false) : k ∉ es.map Prod.fst := by
  intro hk
  rcases List.mem_map.mp hk with ⟨p, hp, hpk⟩
  have h1 : (p.1 == k) = true := by simp [hpk]
  have h2 : keyMem es k = true := by
    simp only [keyMem, List.any_eq_true]
    exact ⟨p, hp, h1⟩
  rw [h] at h2
  cases h2

/-- Dict assignment keeps the keys of an association list duplicate-free:
the "at most one FramesEntry per dataset name" invariant. -/
theorem nodup_keys_setEntry {α : Type} (es : List (String × α)) (k : String)
    (v : α) (h : (es.map Prod.fst).Nodup) :
    ((setEntry es k v).map Prod.fst).Nodup := by
  unfold setEntry
  cases hm : keyMem es k with
  | true =>
      rw [if_pos rfl, map_fst_update]
      exact h
  | false =>
      rw [if_neg (by simp)]
      have hk := keyMem_false_not_mem es k hm
      simp [List.nodup_append, h, hk]

/-- proj's launch worker either leaves the frame cache alone or stores one
entry under the requested name. -/
theorem launch_fiftyone_frames_cases (env : Env) (st : Proj.St)
    (dataset_name : String) :
    (Proj.launch_fiftyone env st dataset_name).1.frames_cache =
      st.frames_cache ∨
    ∃ fv, (Proj.launch_fiftyone env st dataset_name).1.frames_cache =
      setEntry st.frames_cache dataset_name fv := by
  unfold Proj.launch_fiftyone
  split
  · exact Or.inl rfl
  · split
    · exact Or.inl rfl
    · split
      · exact Or.inl rfl
      · exact Or.inr ⟨_, rfl⟩

/-- proj1's launch worker likewise. -/
theorem launch1_fiftyone_frames_cases (env : Env) (st : Proj1.St)
    (dataset_name : String) :
    (Proj1.launch_fiftyone env st dataset_name).1.frames_cache =
      st.frames_cache ∨
    ∃ fv, (Proj1.launch_fiftyone env st dataset_name).1.frames_cache =
      setEntry st.frames_cache dataset_name fv := by
  simp only [Proj1.launch_fiftyone]
  split
  · split
    · exact Or.inl rfl
    · split
      · exact Or.inl rfl
      · exact Or.inr ⟨_, rfl⟩
  · exact Or.inl rfl

/-- C6 (amended): on launching a cached dataset name, proj skips
recomputation and reuses the cached FramesEntry whenever one EXISTS, while
proj1 does so only when the existing entry is non-empty (a cached empty
frames view is recomputed and overwritten in place); when there is no
reusable entry and the frame computation succeeds, exactly one new entry is
stored under the name; launching keeps the per-name uniqueness of entries in
both variants; and create-dataset leaves the Frame Cache entirely untouched
(in particular it removes no entry of the same name). -/
theorem frames_cache_policy :
    (∀ (env : Env) (st : Proj.St) (dataset_name : String),
      keyMem st.frames_cache dataset_name = true →
      (Proj.launch_fiftyone env st dataset_name).1.frames_cache =
        st.frames_cache ∧
      ExtCall.toFrames dataset_name ∉
        (Proj.launch_fiftyone env st dataset_name).2) ∧
    (∀ (env : Env) (st : Proj1.St) (dataset_name : String) (fv : FramesView),
      lookupEntry st.frames_cache dataset_name = some fv →
      fv.numFrames ≠ 0 →
      (Proj1.launch_fiftyone env st dataset_name).1.frames_cache =
        st.frames_cache ∧
      ExtCall.toFrames dataset_name ∉
        (Proj1.launch_fiftyone env st dataset_name).2) ∧
    (∀ (env : Env) (st : Proj.St) (dataset_name : String) (ds : FoDataset)
        (fv : FramesView),
      keyMem st.frames_cache dataset_name = false →
      st.storage.load dataset_name = some ds →
      env.toFramesResult ds = .ok fv →
      (Proj.launch_fiftyone env st dataset_name).1.frames_cache =
        setEntry st.frames_cache dataset_name fv) ∧
    (∀ (env : Env) (st : Proj1.St) (dataset_name : String) (ds : FoDataset)
        (fv : FramesView),
      pyTruthy (lookupEntry st.frames_cache dataset_name) = false →
      lookupEntry st.datasets_cache dataset_name = some ds →
      env.toFramesResult ds = .ok fv →
      (Proj1.launch_fiftyone env st dataset_name).1.frames_cache =
        setEntry st.frames_cache dataset_name fv) ∧
    (∀ (env : Env) (st : Proj.St) (dataset_name : String),
      (st.frames_cache.map Prod.fst).Nodup →
      ((Proj.launch_fiftyone env st dataset_name).1.frames_cache.map
        Prod.fst).Nodup) ∧
    (∀ (env : Env) (st : Proj1.St) (dataset_name : String),
      (st.frames_cache.map Prod.fst).Nodup →
      ((Proj1.launch_fiftyone env st dataset_name).1.frames_cache.map
        Prod.fst).Nodup) ∧
    (∀ (fs : FileSystem) (st : Proj.St) (dataset_name dataset_dir : String),
      (Proj.create_dataset fs st dataset_name dataset_dir).1.frames_cache =
        st.frames_cache) ∧
    (∀ (fs : FileSystem) (st : Proj1.St) (dataset_name dataset_dir : String),
      (Proj1.create_dataset fs st dataset_name dataset_dir).1.frames_cache =
        st.frames_cache) := by
  refine ⟨?_, ?_, ?_, ?_, ?_, ?_, ?_, ?_⟩
  · intro env st dataset_name h
    refine ⟨by simp [Proj.launch_fiftyone, h], ?_⟩
    cases henv : env.launchAppOutcome <;>
      simp [Proj.launch_fiftyone, h, launchTail, henv]
  · intro env st dataset_name fv hl hnz
    have ht : pyTruthy (lookupEntry st.frames_cache dataset_name) = true := by
      rw [hl]; simp [pyTruthy, hnz]
    refine ⟨by simp [Proj1.launch_fiftyone, ht], ?_⟩
    cases henv : env.launchAppOutcome <;>
      simp [Proj1.launch_fiftyone, ht, launchTail, henv]
  · intro env st dataset_name ds fv hm hload hfr
    simp [Proj.launch_fiftyone, hm, hload, hfr]
  · intro env st dataset_name ds fv hpt hlds hfr
    simp [Proj1.launch_fiftyone, hpt, hlds, hfr]
  · intro env st dataset_name h
    rcases launch_fiftyone_frames_cases env st dataset_name with hc | ⟨fv, hc⟩ <;>
      rw [hc]
    · exact h
    · exact nodup_keys_setEntry _ _ _ h
  · intro env st dataset_name h
    rcases launch1_fiftyone_frames_cases env st dataset_name with hc | ⟨fv, hc⟩ <;>
      rw [hc]
    · exact h
    · exact nodup_keys_setEntry _ _ _ h
  · intro fs st dataset_name dataset_dir
    simp only [Proj.create_dataset]
    split
    · rfl
    · split <;> rfl
  · intro fs st dataset_name dataset_dir
    simp only [Proj1.create_dataset]
    split <;> rfl

/-- C6 witness: the amended statement exercised at concrete inputs — a warm
entry reused in both variants, a miss (and a falsy cached entry) computed
and stored exactly once, and key uniqueness preserved. -/
theorem frames_cache_policy_witness :
    ((Proj.launch_fiftyone okEnv projWarmFramesSt "demo").1.frames_cache =
        projWarmFramesSt.frames_cache ∧
      ExtCall.toFrames "demo" ∉
        (Proj.launch_fiftyone okEnv projWarmFramesSt "demo").2) ∧
    ((Proj1.launch_fiftyone okEnv proj1WarmFramesSt "demo").1.frames_cache =
        proj1WarmFramesSt.frames_cache ∧
      ExtCall.toFrames "demo" ∉
        (Proj1.launch_fiftyone okEnv proj1WarmFramesSt "demo").2) ∧
    (Proj.launch_fiftyone okEnv projDemoAfterStartup "demo").1.frames_cache =
      setEntry projDemoAfterStartup.frames_cache "demo" ⟨"demo", 5⟩ ∧
    (Proj1.launch_fiftyone okEnv proj1StaleFramesSt "demo").1.frames_cache =
      setEntry proj1StaleFramesSt.frames_cache "demo" ⟨"demo", 5⟩ ∧
    ((Proj.launch_fiftyone okEnv projDemoAfterStartup "demo").1.frames_cache.map
      Prod.fst).Nodup :=
  ⟨frames_cache_policy.1 okEnv projWarmFramesSt "demo" rfl,
    frames_cache_policy.2.1 okEnv proj1WarmFramesSt "demo" ⟨"demo", 5⟩ rfl
      (by decide),
    frames_cache_policy.2.2.1 okEnv projDemoAfterStartup "demo"
      oldDemoDataset ⟨"demo", 5⟩ rfl rfl rfl,
    frames_cache_policy.2.2.2.1 okEnv proj1StaleFramesSt "demo"
      oldDemoDataset ⟨"demo", 5⟩ rfl rfl rfl,
    frames_cache_policy.2.2.2.2.1 okEnv projDemoAfterStartup "demo"
      (by simp [projDemoAfterStartup, Proj.preload_datasets, projDemoInit, okEnv])⟩
